import Mathlib

/-!
Verification of the care-schedule derivation engine of `app.py` (GreenBuddy
backend).  The embedded fragments are the schedule computations of the
`add_plant`, `update_plant` and `log_plant_care` request handlers, the
timestamp parsing they perform, and — modelled from the specification, since
no such code exists in the repository — the plant-type resolver.

External collaborators (MongoDB collections, Cloudinary uploads, the
care-guide lookup) are modelled as function parameters or omitted fields:
the rule table `plant_care_rules_collection` becomes a lookup function
`String → Option CareRuleDoc`, and the plant document found by
`plant_collection.find_one` becomes an `Option PlantDoc` argument.
-/

namespace GreenBuddy

/-- A point in time as stored by the backend: Python `datetime` calendar
fields.  A UTC offset accepted by `fromisoformat` is validated and then
discarded, since no embedded operation compares offsets. -/
structure DateTime where
  year : Int
  month : Int
  day : Int
  hour : Int
  minute : Int
  second : Int
  microsecond : Int
deriving DecidableEq, Repr

/-- Gregorian leap-year rule, as in Python's `calendar.isleap`. -/
def isLeapYear (y : Int) : Bool :=
  (y.emod 4 = 0 && y.emod 100 ≠ 0) || y.emod 400 = 0

/-- Number of days in a month, as in Python's `calendar.monthrange(y, m)[1]`. -/
def daysInMonth (y m : Int) : Int :=
  if m = 2 then (if isLeapYear y then 29 else 28)
  else if m = 4 || m = 6 || m = 9 || m = 11 then 30
  else 31

/-- Days since 1970-01-01 of a Gregorian date (standard civil-calendar
conversion; all divisions floor, matching Python's date ordinal shifted by
the Unix epoch). -/
def daysFromCivil (y m d : Int) : Int :=
  let yy := if m ≤ 2 then y - 1 else y
  let era := yy.fdiv 400
  let yoe := yy - era * 400
  let doy := (153 * (if m > 2 then m - 3 else m + 9) + 2).fdiv 5 + d - 1
  let doe := yoe * 365 + yoe.fdiv 4 - yoe.fdiv 100 + doy
  era * 146097 + doe - 719468

/-- Gregorian date from days since 1970-01-01 (inverse of `daysFromCivil`). -/
def civilFromDays (n : Int) : Int × Int × Int :=
  let z := n + 719468
  let era := z.fdiv 146097
  let doe := z - era * 146097
  let yoe := (doe - doe.fdiv 1460 + doe.fdiv 36524 - doe.fdiv 146096).fdiv 365
  let y := yoe + era * 400
  let doy := doe - (365 * yoe + yoe.fdiv 4 - yoe.fdiv 100)
  let mp := (5 * doy + 2).fdiv 153
  let d := doy - (153 * mp + 2).fdiv 5 + 1
  let m := if mp < 10 then mp + 3 else mp - 9
  (if m ≤ 2 then y + 1 else y, m, d)

/-- `dt + timedelta(days = n)`: Python `timedelta` day arithmetic shifts the
civil date by exactly `n` days and leaves the time of day unchanged. -/
def addDays (dtv : DateTime) (n : Int) : DateTime :=
  let c := civilFromDays (daysFromCivil dtv.year dtv.month dtv.day + n)
  { dtv with year := c.1, month := c.2.1, day := c.2.2 }

/-- `dt + relativedelta(months = n)`: dateutil's calendar-month arithmetic.
The month count is shifted by `n` with floor carry into the year, and the
day of month is clamped to `calendar.monthrange(year, month)[1]` when the
original day does not exist in the target month. -/
def addMonths (dtv : DateTime) (n : Int) : DateTime :=
  let t := dtv.month - 1 + n
  let y := dtv.year + t.fdiv 12
  let m := t.fmod 12 + 1
  { dtv with year := y, month := m, day := min dtv.day (daysInMonth y m) }

/-- Count of whole months from month 0 of year 0; used to state what
"`n` calendar months later" means. -/
def monthIndex (dtv : DateTime) : Int := 12 * dtv.year + (dtv.month - 1)

/-- The `s.replace('Z', '+00:00')` step applied before `fromisoformat`
(app.py lines 172-174, 417-419). -/
def replZChars : List Char → List Char
  | [] => []
  | c :: rest =>
    if c = 'Z' then '+' :: '0' :: '0' :: ':' :: '0' :: '0' :: replZChars rest
    else c :: replZChars rest

def isDigitChar (c : Char) : Bool := '0' ≤ c && c ≤ '9'

def digitVal (c : Char) : Int := (c.toNat : Int) - 48

/-- Two leading decimal digits. -/
def parse2 : List Char → Option (Int × List Char)
  | a :: b :: rest =>
    if isDigitChar a && isDigitChar b then
      some (10 * digitVal a + digitVal b, rest)
    else none
  | _ => none

/-- Four leading decimal digits. -/
def parse4 : List Char → Option (Int × List Char)
  | a :: b :: c :: d :: rest =>
    if isDigitChar a && isDigitChar b && isDigitChar c && isDigitChar d then
      some (1000 * digitVal a + 100 * digitVal b + 10 * digitVal c + digitVal d, rest)
    else none
  | _ => none

def takeDigits : List Char → List Char × List Char
  | [] => ([], [])
  | c :: rest =>
    if isDigitChar c then
      let p := takeDigits rest
      (c :: p.1, p.2)
    else ([], c :: rest)

def digitsToInt (ds : List Char) : Int :=
  ds.foldl (fun a c => 10 * a + digitVal c) 0

/-- Fractional-seconds part after the dot: 1 to 6 digits, scaled to
microseconds as `fromisoformat` does. -/
def parseFrac (cs : List Char) : Option (Int × List Char) :=
  let p := takeDigits cs
  if p.1.length = 0 || 6 < p.1.length then none
  else some (digitsToInt p.1 * (10 : Int) ^ (6 - p.1.length), p.2)

/-- A trailing UTC offset `±HH:MM` (or nothing); `fromisoformat` validates
it and attaches a tzinfo, which the embedding discards. -/
def parseOffsetEnd : List Char → Bool
  | [] => true
  | c :: rest =>
    (c = '+' || c = '-') &&
    (match parse2 rest with
     | some (hh, r1) =>
       (match r1 with
        | ':' :: r2 =>
          (match parse2 r2 with
           | some (mm, r3) => hh ≤ 23 && mm ≤ 59 && r3 = []
           | none => false)
        | _ => false)
     | none => false)

/-- `HH:MM[:SS[.ffffff]][±HH:MM]`, consuming the whole remainder. -/
def parseTimeAndOffset (cs : List Char) : Option (Int × Int × Int × Int) :=
  let finish := fun (h mi s us : Int) (rest : List Char) =>
    if parseOffsetEnd rest && h ≤ 23 && mi ≤ 59 && s ≤ 59 then
      some (h, mi, s, us)
    else none
  match parse2 cs with
  | none => none
  | some (h, r1) =>
    match r1 with
    | ':' :: r2 =>
      match parse2 r2 with
      | none => none
      | some (mi, r3) =>
        match r3 with
        | ':' :: r4 =>
          match parse2 r4 with
          | none => none
          | some (s, r5) =>
            match r5 with
            | '.' :: r6 =>
              match parseFrac r6 with
              | none => none
              | some (us, r7) => finish h mi s us r7
            | _ => finish h mi s 0 r5
        | _ => finish h mi 0 0 r3
    | _ => none

/-- `datetime.fromisoformat` on the format family the backend exchanges:
`YYYY-MM-DD[T HH:MM[:SS[.ffffff]]][±HH:MM]`, with CPython's field-range
validation (year 1-9999, month 1-12, day within the month, time fields in
range). -/
def fromisoChars (cs : List Char) : Option DateTime :=
  match parse4 cs with
  | none => none
  | some (y, r1) =>
    match r1 with
    | '-' :: r2 =>
      match parse2 r2 with
      | none => none
      | some (mo, r3) =>
        match r3 with
        | '-' :: r4 =>
          match parse2 r4 with
          | none => none
          | some (d, r5) =>
            if 1 ≤ y && y ≤ 9999 && 1 ≤ mo && mo ≤ 12 &&
               1 ≤ d && d ≤ daysInMonth y mo then
              match r5 with
              | [] => some ⟨y, mo, d, 0, 0, 0, 0⟩
              | sep :: r6 =>
                if sep = 'T' || sep = ' ' then
                  match parseTimeAndOffset r6 with
                  | some (h, mi, s, us) => some ⟨y, mo, d, h, mi, s, us⟩
                  | none => none
                else none
            else none
        | _ => none
    | _ => none

/-- `datetime.fromisoformat(s.replace('Z', '+00:00'))` as performed on every
caller-supplied timestamp string (app.py lines 172-174, 178-179, 417-419,
423-424).  `none` is the `ValueError` path. -/
def parseTimestamp (s : String) : Option DateTime :=
  fromisoChars (replZChars s.data)

/-- A document of the `plant_care_rules` collection.  Frequency fields may
be absent; every reader applies `rules.get(field, default)`. -/
structure CareRuleDoc where
  wateringFrequencyDays : Option Int
  fertilizingFrequencyDays : Option Int
  repottingFrequencyMonths : Option Int
deriving DecidableEq, Repr

/-- `rules.get('wateringFrequencyDays', 7)` (app.py lines 168, 412, 631). -/
def CareRuleDoc.wateringFreq (r : CareRuleDoc) : Int :=
  r.wateringFrequencyDays.getD 7

/-- `rules.get('fertilizingFrequencyDays', 30)` (app.py lines 169, 413, 636). -/
def CareRuleDoc.fertilizingFreq (r : CareRuleDoc) : Int :=
  r.fertilizingFrequencyDays.getD 30

/-- `rules.get('repottingFrequencyMonths', 12)` (app.py lines 170, 414, 641). -/
def CareRuleDoc.repottingFreq (r : CareRuleDoc) : Int :=
  r.repottingFrequencyMonths.getD 12

/-- The schedule-bearing part of a document of the `plants` collection, as
written by `add_plant` and mutated by `log_plant_care`.  Pass-through
metadata copied verbatim from the request (`soilType`, `potType`,
`potSize`, `careNotes`) and collaborator-produced fields (`photo_url`,
`care_guide_id`, `isArchived`, `archivedAt`) are omitted: no embedded
computation reads them. -/
structure PlantDoc where
  uid : String
  plantName : String
  plantType : String
  dateAcquired : Option DateTime
  lastWateredDate : DateTime
  lastFertilizedDate : DateTime
  lastRepottedDate : DateTime
  nextWateringDate : DateTime
  nextFertilizingDate : DateTime
  nextRepottingDate : DateTime
deriving DecidableEq, Repr

/-- The error outcomes of the embedded handlers, by HTTP status and message:
`missingFields` = 400 "Missing required fields" and 400 "Missing 'careType'
in request"; `ruleNotFound` = 404 "Care rules ... not found";
`plantNotFound` = 404 "Plant not found"; `invalidCareType` = 400 "Invalid
'careType'"; `internalServerError` = the 500 produced by each handler's
catch-all `except` (in particular on a timestamp `ValueError`). -/
inductive AppError where
  | missingFields
  | ruleNotFound
  | plantNotFound
  | invalidCareType
  | internalServerError
deriving DecidableEq, Repr

/-- Python truthiness of a form field: absent (`None`) and the empty string
are both falsy, which is what `if not all([...])` and `if not care_type`
test. -/
def truthy : Option String → Bool
  | none => false
  | some s => s ≠ ""

/-- The form fields of an `/add_plant` request that the schedule engine
reads. -/
structure AddPlantRequest where
  uid : Option String
  plantName : Option String
  plantType : Option String
  lastWateredDate : Option String
  lastFertilizedDate : Option String
  lastRepottedDate : Option String
  dateAcquired : Option String
deriving DecidableEq, Repr

/-- `all([firebase_uid, plant_name, plant_type, last_watered_date_str,
last_fertilized_date_str, last_rePotted_date_str])` (app.py line 152). -/
def truthyReq (req : AddPlantRequest) : Bool :=
  truthy req.uid && truthy req.plantName && truthy req.plantType &&
  truthy req.lastWateredDate && truthy req.lastFertilizedDate &&
  truthy req.lastRepottedDate

/-- `if date_acquired_str:` then parse it, else keep `None` (app.py lines
176-179, 421-424); a `ValueError` inside the parse is the handler's 500. -/
def parseAcquired : Option String → Except AppError (Option DateTime)
  | none => .ok none
  | some s =>
    if s = "" then .ok none
    else
      match parseTimestamp s with
      | none => .error .internalServerError
      | some d => .ok (some d)

/-- The `add_plant` handler (app.py lines 132-224), with the rule table as
an explicit point-lookup function (`plant_care_rules_collection.find_one`
on the exact `plantType` string).  In source order: the required-field
truthiness check (400), the rule lookup (404), parsing the three
`last*Date` strings and the optional `dateAcquired` (a `ValueError` is
caught by the handler's catch-all and becomes the 500), then the derived
`next*Date` fields of the inserted document. -/
def add_plant (careRules : String → Option CareRuleDoc) (req : AddPlantRequest) :
    Except AppError PlantDoc :=
  if !truthyReq req then .error .missingFields
  else
    match careRules (req.plantType.getD "") with
    | none => .error .ruleNotFound
    | some rules =>
      match parseTimestamp (req.lastWateredDate.getD ""),
            parseTimestamp (req.lastFertilizedDate.getD ""),
            parseTimestamp (req.lastRepottedDate.getD "") with
      | some lw, some lf, some lr =>
        match parseAcquired req.dateAcquired with
        | .error e => .error e
        | .ok da =>
          .ok { uid := req.uid.getD "", plantName := req.plantName.getD "",
                plantType := req.plantType.getD "", dateAcquired := da,
                lastWateredDate := lw, lastFertilizedDate := lf,
                lastRepottedDate := lr,
                nextWateringDate := addDays lw rules.wateringFreq,
                nextFertilizingDate := addDays lf rules.fertilizingFreq,
                nextRepottingDate := addMonths lr rules.repottingFreq }
      | _, _, _ => .error .internalServerError

/-- The form fields of a `/plant/update/<id>` request that the schedule
engine reads. -/
structure UpdatePlantRequest where
  plantName : Option String
  plantType : Option String
  lastWateredDate : Option String
  lastFertilizedDate : Option String
  lastRepottedDate : Option String
  dateAcquired : Option String
deriving DecidableEq, Repr

/-- `all([plant_name, plant_type, last_watered_date_str, ...])` (app.py
line 401). -/
def truthyUpdateReq (req : UpdatePlantRequest) : Bool :=
  truthy req.plantName && truthy req.plantType &&
  truthy req.lastWateredDate && truthy req.lastFertilizedDate &&
  truthy req.lastRepottedDate

/-- A Python `str.strip()` whitespace character. -/
def isPySpace (c : Char) : Bool :=
  c = ' ' || c = '\t' || c = '\n' || c = '\r' || c = '\x0b' || c = '\x0c'

def dropLeadingWS : List Char → List Char
  | [] => []
  | c :: r => if isPySpace c then dropLeadingWS r else c :: r

/-- Python `str.strip()`: remove leading and trailing whitespace. -/
def pyStrip (s : String) : String :=
  String.mk ((dropLeadingWS ((dropLeadingWS s.data).reverse)).reverse)

/-- The schedule-bearing part of the `$set` document built by
`update_plant` (app.py lines 432-449). -/
structure PlantUpdate where
  plantName : String
  plantType : String
  dateAcquired : Option DateTime
  lastWateredDate : DateTime
  lastFertilizedDate : DateTime
  lastRepottedDate : DateTime
  nextWateringDate : DateTime
  nextFertilizingDate : DateTime
  nextRepottingDate : DateTime
deriving DecidableEq, Repr

/-- The `update_plant` handler (app.py lines 374-482).  Its rule lookup is
a case-insensitive anchored-regex `find_one` on `plant_type.strip()`, so
the collaborator lookup function here is applied to the trimmed type and
is itself responsible for the case-insensitive matching.  `plantExists`
models `update_one(...).matched_count`, checked only after the update
document has been computed. -/
def update_plant (careRulesCI : String → Option CareRuleDoc) (plantExists : Bool)
    (req : UpdatePlantRequest) : Except AppError PlantUpdate :=
  if !truthyUpdateReq req then .error .missingFields
  else
    match careRulesCI (pyStrip (req.plantType.getD "")) with
    | none => .error .ruleNotFound
    | some rules =>
      match parseTimestamp (req.lastWateredDate.getD ""),
            parseTimestamp (req.lastFertilizedDate.getD ""),
            parseTimestamp (req.lastRepottedDate.getD "") with
      | some lw, some lf, some lr =>
        match parseAcquired req.dateAcquired with
        | .error e => .error e
        | .ok da =>
          if !plantExists then .error .plantNotFound
          else
            .ok { plantName := req.plantName.getD "",
                  plantType := req.plantType.getD "", dateAcquired := da,
                  lastWateredDate := lw, lastFertilizedDate := lf,
                  lastRepottedDate := lr,
                  nextWateringDate := addDays lw rules.wateringFreq,
                  nextFertilizingDate := addDays lf rules.fertilizingFreq,
                  nextRepottingDate := addMonths lr rules.repottingFreq }
      | _, _, _ => .error .internalServerError

/-- The `log_plant_care` handler (app.py lines 607-666).  In source order:
the `careType` truthiness check (400), the plant lookup (404, modelled by
the `Option PlantDoc` argument), the rule lookup on the stored plant's
`plantType` (404), then the dispatch on the care kind; an unrecognized
kind returns 400 "Invalid 'careType'" before any update.  `now` is
`datetime.now()`.  The `.ok` value is the stored document after the
`update_one` `$set` of exactly one `(last, next)` pair. -/
def log_plant_care (careRules : String → Option CareRuleDoc)
    (plant : Option PlantDoc) (careType : Option String) (now : DateTime) :
    Except AppError PlantDoc :=
  if !truthy careType then .error .missingFields
  else
    match plant with
    | none => .error .plantNotFound
    | some p =>
      match careRules p.plantType with
      | none => .error .ruleNotFound
      | some rules =>
        let ct := careType.getD ""
        if ct = "water" then
          .ok { p with lastWateredDate := now,
                       nextWateringDate := addDays now rules.wateringFreq }
        else if ct = "fertilize" then
          .ok { p with lastFertilizedDate := now,
                       nextFertilizingDate := addDays now rules.fertilizingFreq }
        else if ct = "repot" then
          .ok { p with lastRepottedDate := now,
                       nextRepottingDate := addMonths now rules.repottingFreq }
        else .error .invalidCareType

/-- Content of the plant's document after a `log_plant_care` request: the
collection is written only on the success path (`update_one` at app.py
lines 649-652 runs only after the dispatch), so an error outcome leaves
the stored document as it was. -/
def storedAfterLog (p : PlantDoc) : Except AppError PlantDoc → PlantDoc
  | .ok p2 => p2
  | .error _ => p

/-- The schedule invariant of the specification: for each care kind the
next-due timestamp is the last-performed timestamp advanced by the rule's
frequency (days for watering and fertilizing, calendar months for
repotting). -/
def scheduleInvariant (rules : CareRuleDoc) (p : PlantDoc) : Prop :=
  p.nextWateringDate = addDays p.lastWateredDate rules.wateringFreq ∧
  p.nextFertilizingDate = addDays p.lastFertilizedDate rules.fertilizingFreq ∧
  p.nextRepottingDate = addMonths p.lastRepottedDate rules.repottingFreq

instance (rules : CareRuleDoc) (p : PlantDoc) :
    Decidable (scheduleInvariant rules p) := by
  unfold scheduleInvariant; infer_instance

/-- Modelled from the spec: the fixed, closed canonical plant-type set of
the Type Resolver (spec §4.1); no resolver code exists in `app.py`, whose
handlers pass the raw `plantType` string straight to the rule lookup. -/
inductive CanonicalType where
  | indoor
  | outdoor
  | flower
  | vegetable
  | herbs
  | cactus
deriving DecidableEq, Repr

/-- Modelled from the spec: a resolution outcome is a canonical type or the
explicit "unresolved" terminal result (spec §4.1, §7). -/
inductive ResolveResult where
  | resolved (t : CanonicalType)
  | unresolved
deriving DecidableEq, Repr

/-- Modelled from the spec: the canonical keys in the fixed, deterministic
order of spec §4.1 ("Indoor, Outdoor, Flower, Vegetable, Herbs, Cactus"),
keyed by the lower-case canonical names. -/
def canonicalKeys : List (String × CanonicalType) :=
  [("indoor", .indoor), ("outdoor", .outdoor), ("flower", .flower),
   ("vegetable", .vegetable), ("herbs", .herbs), ("cactus", .cactus)]

/-- ASCII lower-casing of one character. -/
def asciiLower (c : Char) : Char :=
  if 'A' ≤ c && c ≤ 'Z' then Char.ofNat (c.toNat + 32) else c

/-- Lower-case, then turn every character that is not a lowercase letter
into a space (runs of stripped characters thereby become runs of spaces,
collapsed next). -/
def lettersToSpaces (cs : List Char) : List Char :=
  cs.map fun c =>
    let l := asciiLower c
    if 'a' ≤ l && l ≤ 'z' then l else ' '

/-- Split on spaces, keeping empty words (collapsing filters them out). -/
def wordsAux (cur : List Char) : List Char → List (List Char)
  | [] => [cur]
  | c :: r => if c = ' ' then cur :: wordsAux [] r else wordsAux (cur ++ [c]) r

/-- Rejoin words with single spaces. -/
def joinWords : List (List Char) → List Char
  | [] => []
  | [w] => w
  | w :: rest => w ++ ' ' :: joinWords rest

/-- Remove one trailing `s` when present (naive singularization). -/
def stripTrailingS (cs : List Char) : List Char :=
  match cs.reverse with
  | 's' :: r => r.reverse
  | _ => cs

/-- Modelled from the spec: the normalization step of the Type Resolver
(spec §4.1): lower-case; strip every character that is not a lowercase
letter, replacing runs with a single space; collapse repeated whitespace
and trim; naively singularize by removing a trailing `s`. -/
def normalizeTypeText (raw : String) : String :=
  let spaced := lettersToSpaces raw.data
  let collapsed := joinWords ((wordsAux [] spaced).filter (fun w => w ≠ []))
  String.mk (stripTrailingS collapsed)

/-- `needle` begins `hay`. -/
def beginsWith : List Char → List Char → Bool
  | _, [] => true
  | [], _ :: _ => false
  | a :: as, b :: bs => a = b && beginsWith as bs

def substrAux (needle : List Char) : List Char → Bool
  | [] => beginsWith [] needle
  | c :: rest => beginsWith (c :: rest) needle || substrAux needle rest

/-- `needle` occurs contiguously inside `hay`. -/
def containsSubstr (hay needle : String) : Bool :=
  substrAux needle.data hay.data

/-- First canonical type whose key exactly equals the normalized text. -/
def findExact (n : String) : List (String × CanonicalType) → Option CanonicalType
  | [] => none
  | (k, t) :: rest => if k == n then some t else findExact n rest

/-- First canonical type (in key order) whose key occurs in the normalized
text as a substring. -/
def findSub (n : String) : List (String × CanonicalType) → Option CanonicalType
  | [] => none
  | (k, t) :: rest => if containsSubstr n k then some t else findSub n rest

/-- Modelled from the spec: the Type Resolver `resolvePlantType` (spec
§4.1, §6), absent from `app.py`.  Empty or null raw text is rejected
immediately; otherwise the text is normalized and resolved by exact key
match, then first substring match in the fixed key order, else
unresolved. -/
def resolvePlantType (raw : Option String) : ResolveResult :=
  match raw with
  | none => .unresolved
  | some s =>
    if s = "" then .unresolved
    else
      match findExact (normalizeTypeText s) canonicalKeys with
      | some t => .resolved t
      | none =>
        match findSub (normalizeTypeText s) canonicalKeys with
        | some t => .resolved t
        | none => .unresolved

/-- The resolution order exactly as the specification words it (spec §4.1):
exact key equality first, then the first key contained as a substring in
the fixed key ordering, else unresolved.  Stated with `List.find?` to be
compared against the structured `resolvePlantType` above. -/
def resolveSpecOrder (raw : String) : ResolveResult :=
  match canonicalKeys.find? (fun kt => kt.1 == normalizeTypeText raw) with
  | some kt => .resolved kt.2
  | none =>
    match canonicalKeys.find? (fun kt => containsSubstr (normalizeTypeText raw) kt.1) with
    | some kt => .resolved kt.2
    | none => .unresolved

/-- A date-only timestamp, midnight UTC. -/
def dt (y m d : Int) : DateTime := ⟨y, m, d, 0, 0, 0, 0⟩

/-- A fully-populated care rule used by concrete witnesses. -/
def sampleRule : CareRuleDoc := ⟨some 7, some 30, some 12⟩

/-- A one-row rule table: only `"Indoor"` has a configured rule. -/
def sampleRules (t : String) : Option CareRuleDoc :=
  if t = "Indoor" then some sampleRule else none

/-- A rule whose watering frequency is the invalid value 0. -/
def zeroRule : CareRuleDoc := ⟨some 0, some 30, some 12⟩

def zeroRules (t : String) : Option CareRuleDoc :=
  if t = "Indoor" then some zeroRule else none

/-- A rule document with all three frequency fields absent. -/
def defaultRule : CareRuleDoc := ⟨none, none, none⟩

def defaultRules (t : String) : Option CareRuleDoc :=
  if t = "Indoor" then some defaultRule else none

/-- A well-formed `/add_plant` request used by concrete witnesses. -/
def sampleReq : AddPlantRequest :=
  { uid := some "u1", plantName := some "Fern", plantType := some "Indoor",
    lastWateredDate := some "2024-01-01T00:00:00Z",
    lastFertilizedDate := some "2024-01-01T00:00:00Z",
    lastRepottedDate := some "2024-01-31T00:00:00Z",
    dateAcquired := none }

/-- The document `add_plant sampleRules sampleReq` inserts. -/
def samplePlant : PlantDoc :=
  { uid := "u1", plantName := "Fern", plantType := "Indoor",
    dateAcquired := none,
    lastWateredDate := dt 2024 1 1, lastFertilizedDate := dt 2024 1 1,
    lastRepottedDate := dt 2024 1 31,
    nextWateringDate := dt 2024 1 8, nextFertilizingDate := dt 2024 1 31,
    nextRepottingDate := dt 2025 1 31 }

/-- The document `add_plant zeroRules sampleReq` inserts: a zero-duration
watering schedule. -/
def zeroPlant : PlantDoc :=
  { samplePlant with nextWateringDate := dt 2024 1 1 }

/-- `sampleReq` with a malformed `lastWateredDate`. -/
def badWaterReq : AddPlantRequest :=
  { sampleReq with lastWateredDate := some "garbage" }

/-- `sampleReq` with a malformed `lastFertilizedDate`. -/
def badFertReq : AddPlantRequest :=
  { sampleReq with lastFertilizedDate := some "garbage" }

/-- A well-formed `/plant/update/<id>` request used by concrete witnesses. -/
def sampleUpdateReq : UpdatePlantRequest :=
  { plantName := some "Fern", plantType := some "Indoor",
    lastWateredDate := some "2024-01-01T00:00:00Z",
    lastFertilizedDate := some "2024-01-01T00:00:00Z",
    lastRepottedDate := some "2024-01-31T00:00:00Z",
    dateAcquired := none }

/-- The `$set` document `update_plant defaultRules true sampleUpdateReq`
computes (defaults 7, 30, 12 applied). -/
def sampleUpdate : PlantUpdate :=
  { plantName := "Fern", plantType := "Indoor", dateAcquired := none,
    lastWateredDate := dt 2024 1 1, lastFertilizedDate := dt 2024 1 1,
    lastRepottedDate := dt 2024 1 31,
    nextWateringDate := dt 2024 1 8, nextFertilizingDate := dt 2024 1 31,
    nextRepottingDate := dt 2025 1 31 }

/-- Every successful `add_plant` derived its `next*Date` fields from the
`last*Date` fields and the looked-up frequencies. -/
theorem add_plant_ok_inv (careRules : String → Option CareRuleDoc)
    (req : AddPlantRequest) (p : PlantDoc)
    (h : add_plant careRules req = .ok p) :
    ∃ rules, careRules p.plantType = some rules ∧
      p.plantType = req.plantType.getD "" ∧
      p.nextWateringDate = addDays p.lastWateredDate rules.wateringFreq ∧
      p.nextFertilizingDate = addDays p.lastFertilizedDate rules.fertilizingFreq ∧
      p.nextRepottingDate = addMonths p.lastRepottedDate rules.repottingFreq := by
  unfold add_plant at h
  split at h
  · cases h
  · split at h
    · cases h
    · rename_i rules hr
      split at h
      · split at h
        · cases h
        · injection h with h
          subst h
          exact ⟨rules, hr, rfl, rfl, rfl, rfl⟩
      · cases h

/-- Success characterization of `add_plant` (without optional
`dateAcquired`): truthy fields, a found rule and three parseable
timestamps yield exactly the document built at app.py lines 186-209 —
with no validation of the frequencies. -/
theorem add_plant_success (careRules : String → Option CareRuleDoc)
    (req : AddPlantRequest) (rules : CareRuleDoc) (lw lf lr : DateTime)
    (ht : truthyReq req = true)
    (hr : careRules (req.plantType.getD "") = some rules)
    (hw : parseTimestamp (req.lastWateredDate.getD "") = some lw)
    (hf : parseTimestamp (req.lastFertilizedDate.getD "") = some lf)
    (hp : parseTimestamp (req.lastRepottedDate.getD "") = some lr)
    (ha : req.dateAcquired = none) :
    add_plant careRules req = .ok
      { uid := req.uid.getD "", plantName := req.plantName.getD "",
        plantType := req.plantType.getD "", dateAcquired := none,
        lastWateredDate := lw, lastFertilizedDate := lf, lastRepottedDate := lr,
        nextWateringDate := addDays lw rules.wateringFreq,
        nextFertilizingDate := addDays lf rules.fertilizingFreq,
        nextRepottingDate := addMonths lr rules.repottingFreq } := by
  simp [add_plant, ht, hr, hw, hf, hp, ha, parseAcquired]

/-- `log_plant_care` for kind `water` updates exactly the watered pair. -/
theorem log_water_eq (careRules : String → Option CareRuleDoc) (p : PlantDoc)
    (rules : CareRuleDoc) (now : DateTime)
    (hr : careRules p.plantType = some rules) :
    log_plant_care careRules (some p) (some "water") now =
      .ok { p with lastWateredDate := now,
                   nextWateringDate := addDays now rules.wateringFreq } := by
  simp [log_plant_care, truthy, hr]

/-- `log_plant_care` for kind `fertilize` updates exactly the fertilized
pair. -/
theorem log_fertilize_eq (careRules : String → Option CareRuleDoc) (p : PlantDoc)
    (rules : CareRuleDoc) (now : DateTime)
    (hr : careRules p.plantType = some rules) :
    log_plant_care careRules (some p) (some "fertilize") now =
      .ok { p with lastFertilizedDate := now,
                   nextFertilizingDate := addDays now rules.fertilizingFreq } := by
  simp [log_plant_care, truthy, hr]

/-- `log_plant_care` for kind `repot` updates exactly the repotted pair. -/
theorem log_repot_eq (careRules : String → Option CareRuleDoc) (p : PlantDoc)
    (rules : CareRuleDoc) (now : DateTime)
    (hr : careRules p.plantType = some rules) :
    log_plant_care careRules (some p) (some "repot") now =
      .ok { p with lastRepottedDate := now,
                   nextRepottingDate := addMonths now rules.repottingFreq } := by
  simp [log_plant_care, truthy, hr]

/-- Any care kind other than the three recognized ones reaches the final
`else` of the dispatch and is rejected. -/
theorem log_invalid_ct (careRules : String → Option CareRuleDoc) (p : PlantDoc)
    (rules : CareRuleDoc) (ct : String) (now : DateTime)
    (hr : careRules p.plantType = some rules)
    (h0 : ct ≠ "") (h1 : ct ≠ "water") (h2 : ct ≠ "fertilize") (h3 : ct ≠ "repot") :
    log_plant_care careRules (some p) (some ct) now = .error .invalidCareType := by
  simp [log_plant_care, truthy, hr, h0, h1, h2, h3]

/-- Every successful `update_plant` derived its `next*Date` fields from the
`last*Date` fields and the looked-up frequencies. -/
theorem update_plant_ok_inv (careRulesCI : String → Option CareRuleDoc)
    (plantExists : Bool) (req : UpdatePlantRequest) (u : PlantUpdate)
    (h : update_plant careRulesCI plantExists req = .ok u) :
    ∃ rules, careRulesCI (pyStrip (req.plantType.getD "")) = some rules ∧
      u.plantType = req.plantType.getD "" ∧
      u.nextWateringDate = addDays u.lastWateredDate rules.wateringFreq ∧
      u.nextFertilizingDate = addDays u.lastFertilizedDate rules.fertilizingFreq ∧
      u.nextRepottingDate = addMonths u.lastRepottedDate rules.repottingFreq := by
  unfold update_plant at h
  split at h
  · cases h
  · split at h
    · cases h
    · rename_i rules hr
      split at h
      · split at h
        · cases h
        · split at h
          · cases h
          · injection h with h
            subst h
            exact ⟨rules, hr, rfl, rfl, rfl, rfl⟩
      · cases h

/-- The exact-match pass of the resolver is `List.find?` on key equality. -/
theorem findExact_eq (n : String) (l : List (String × CanonicalType)) :
    findExact n l = (l.find? (fun kt => kt.1 == n)).map (fun kt => kt.2) := by
  induction l with
  | nil => rfl
  | cons kt rest ih =>
    obtain ⟨k, t⟩ := kt
    simp only [findExact, List.find?]
    cases h : (k == n) with
    | true => simp
    | false => simp [ih]

/-- The substring pass of the resolver is `List.find?` on containment. -/
theorem findSub_eq (n : String) (l : List (String × CanonicalType)) :
    findSub n l = (l.find? (fun kt => containsSubstr n kt.1)).map (fun kt => kt.2) := by
  induction l with
  | nil => rfl
  | cons kt rest ih =>
    obtain ⟨k, t⟩ := kt
    simp only [findSub, List.find?]
    cases h : containsSubstr n k with
    | true => simp
    | false => simp [ih]

/-- dateutil month arithmetic advances the month count by exactly `n` and
clamps the day of month to the length of the target month. -/
theorem addMonths_spec (d : DateTime) (n : Int) :
    monthIndex (addMonths d n) = monthIndex d + n ∧
    (addMonths d n).day =
      min d.day (daysInMonth (addMonths d n).year (addMonths d n).month) ∧
    (addMonths d n).hour = d.hour ∧ (addMonths d n).minute = d.minute ∧
    (addMonths d n).second = d.second := by
  refine ⟨?_, rfl, rfl, rfl, rfl⟩
  have h1 : ∀ a : Int, a.fdiv 12 = a / 12 := fun a => Int.fdiv_eq_ediv a (by norm_num)
  have h2 : ∀ a : Int, a.fmod 12 = a % 12 := fun a => Int.fmod_eq_emod a (by norm_num)
  dsimp only [addMonths, monthIndex]
  rw [h1, h2]
  omega

/-- C1: for every schedule the engine produces, each care kind's next-due
timestamp equals its last-performed timestamp advanced by the rule's
frequency (days for watering and fertilizing, calendar months for
repotting) — immediately after plant creation, and after every
care-logging event (the logged kind is set to `now`/`now + frequency` and
the untouched kinds keep an invariant that held before under the same
rule). -/
theorem c1_schedule_invariant :
    (∀ (careRules : String → Option CareRuleDoc) (req : AddPlantRequest)
       (p : PlantDoc),
      add_plant careRules req = .ok p →
      ∃ rules, careRules p.plantType = some rules ∧ scheduleInvariant rules p) ∧
    (∀ (careRules : String → Option CareRuleDoc) (p p2 : PlantDoc)
       (rules : CareRuleDoc) (careType : Option String) (now : DateTime),
      careRules p.plantType = some rules →
      scheduleInvariant rules p →
      log_plant_care careRules (some p) careType now = .ok p2 →
      scheduleInvariant rules p2) := by
  constructor
  · intro careRules req p h
    obtain ⟨rules, hr, _, hw, hf, hp⟩ := add_plant_ok_inv careRules req p h
    exact ⟨rules, hr, hw, hf, hp⟩
  · intro careRules p p2 rules careType now hr hinv hlog
    obtain ⟨h1, h2, h3⟩ := hinv
    simp only [log_plant_care] at hlog
    split at hlog
    · cases hlog
    · simp only [hr] at hlog
      split at hlog
      · injection hlog with hlog; subst hlog; exact ⟨rfl, h2, h3⟩
      · split at hlog
        · injection hlog with hlog; subst hlog; exact ⟨h1, rfl, h3⟩
        · split at hlog
          · injection hlog with hlog; subst hlog; exact ⟨h1, h2, rfl⟩
          · cases hlog

/-- C1 witness: concrete invariant after creation and after logging
`water` at 2024-03-01. -/
theorem c1_witness :
    (∃ rules, sampleRules samplePlant.plantType = some rules ∧
      scheduleInvariant rules samplePlant) ∧
    scheduleInvariant sampleRule
      { samplePlant with lastWateredDate := dt 2024 3 1,
                         nextWateringDate := dt 2024 3 8 } :=
  ⟨c1_schedule_invariant.1 sampleRules sampleReq samplePlant rfl,
   c1_schedule_invariant.2 sampleRules samplePlant
     { samplePlant with lastWateredDate := dt 2024 3 1,
                        nextWateringDate := dt 2024 3 8 }
     sampleRule (some "water") (dt 2024 3 1) rfl (by decide) rfl⟩

/-- C2: logging a care event for kind `k` at `now` sets `last_k = now` and
`next_k = now + frequency_k` for that kind only; the record-update form of
each right-hand side pins every other field of the stored document —
including the other two kinds' `(last, next)` pairs — to its previous
value. -/
theorem c2_log_care_frame :
    ∀ (careRules : String → Option CareRuleDoc) (p : PlantDoc)
      (rules : CareRuleDoc) (now : DateTime),
      careRules p.plantType = some rules →
      (log_plant_care careRules (some p) (some "water") now =
        .ok { p with lastWateredDate := now,
                     nextWateringDate := addDays now rules.wateringFreq }) ∧
      (log_plant_care careRules (some p) (some "fertilize") now =
        .ok { p with lastFertilizedDate := now,
                     nextFertilizingDate := addDays now rules.fertilizingFreq }) ∧
      (log_plant_care careRules (some p) (some "repot") now =
        .ok { p with lastRepottedDate := now,
                     nextRepottingDate := addMonths now rules.repottingFreq }) :=
  fun careRules p rules now hr =>
    ⟨log_water_eq careRules p rules now hr,
     log_fertilize_eq careRules p rules now hr,
     log_repot_eq careRules p rules now hr⟩

/-- C2 witness: the three kinds logged on a schedule with distinct field
values. -/
theorem c2_witness :
    (log_plant_care sampleRules (some samplePlant) (some "water") (dt 2024 3 1) =
      .ok { samplePlant with
              lastWateredDate := dt 2024 3 1,
              nextWateringDate := addDays (dt 2024 3 1) sampleRule.wateringFreq }) ∧
    (log_plant_care sampleRules (some samplePlant) (some "fertilize") (dt 2024 3 1) =
      .ok { samplePlant with
              lastFertilizedDate := dt 2024 3 1,
              nextFertilizingDate := addDays (dt 2024 3 1) sampleRule.fertilizingFreq }) ∧
    (log_plant_care sampleRules (some samplePlant) (some "repot") (dt 2024 3 1) =
      .ok { samplePlant with
              lastRepottedDate := dt 2024 3 1,
              nextRepottingDate := addMonths (dt 2024 3 1) sampleRule.repottingFreq }) :=
  c2_log_care_frame sampleRules samplePlant sampleRule (dt 2024 3 1) rfl

/-- C3 counterexample: with `wateringFrequencyDays = 0` the engine does not
fail — `add_plant` succeeds and returns a zero-duration schedule whose
next-watering timestamp equals the last-watered timestamp. -/
theorem c3_counterexample :
    zeroRule.wateringFrequencyDays = some 0 ∧
    add_plant zeroRules sampleReq = .ok zeroPlant ∧
    zeroPlant.nextWateringDate = zeroPlant.lastWateredDate :=
  ⟨rfl, rfl, rfl⟩

/-- C3 (amended): the engine performs no validation of frequency values:
schedule initialization and care-event logging succeed for any configured
frequencies, zero and negative included, and compute
`next_k = last_k + frequency_k` regardless of sign — no `InvalidRule`
outcome exists. -/
theorem c3_no_frequency_validation :
    (∀ (careRules : String → Option CareRuleDoc) (req : AddPlantRequest)
       (rules : CareRuleDoc) (lw lf lr : DateTime),
      truthyReq req = true →
      careRules (req.plantType.getD "") = some rules →
      parseTimestamp (req.lastWateredDate.getD "") = some lw →
      parseTimestamp (req.lastFertilizedDate.getD "") = some lf →
      parseTimestamp (req.lastRepottedDate.getD "") = some lr →
      req.dateAcquired = none →
      add_plant careRules req = .ok
        { uid := req.uid.getD "", plantName := req.plantName.getD "",
          plantType := req.plantType.getD "", dateAcquired := none,
          lastWateredDate := lw, lastFertilizedDate := lf,
          lastRepottedDate := lr,
          nextWateringDate := addDays lw rules.wateringFreq,
          nextFertilizingDate := addDays lf rules.fertilizingFreq,
          nextRepottingDate := addMonths lr rules.repottingFreq }) ∧
    (∀ (careRules : String → Option CareRuleDoc) (p : PlantDoc)
       (rules : CareRuleDoc) (now : DateTime),
      careRules p.plantType = some rules →
      log_plant_care careRules (some p) (some "water") now =
        .ok { p with lastWateredDate := now,
                     nextWateringDate := addDays now rules.wateringFreq }) :=
  ⟨fun careRules req rules lw lf lr ht hr hw hf hp ha =>
     add_plant_success careRules req rules lw lf lr ht hr hw hf hp ha,
   fun careRules p rules now hr => log_water_eq careRules p rules now hr⟩

/-- C3 witness: both operations succeed against the zero-frequency rule. -/
theorem c3_witness :
    add_plant zeroRules sampleReq = .ok
      { uid := sampleReq.uid.getD "", plantName := sampleReq.plantName.getD "",
        plantType := sampleReq.plantType.getD "", dateAcquired := none,
        lastWateredDate := dt 2024 1 1, lastFertilizedDate := dt 2024 1 1,
        lastRepottedDate := dt 2024 1 31,
        nextWateringDate := addDays (dt 2024 1 1) zeroRule.wateringFreq,
        nextFertilizingDate := addDays (dt 2024 1 1) zeroRule.fertilizingFreq,
        nextRepottingDate := addMonths (dt 2024 1 31) zeroRule.repottingFreq } ∧
    log_plant_care zeroRules (some zeroPlant) (some "water") (dt 2024 3 1) =
      .ok { zeroPlant with
              lastWateredDate := dt 2024 3 1,
              nextWateringDate := addDays (dt 2024 3 1) zeroRule.wateringFreq } :=
  ⟨c3_no_frequency_validation.1 zeroRules sampleReq zeroRule
     (dt 2024 1 1) (dt 2024 1 1) (dt 2024 1 31) rfl rfl rfl rfl rfl rfl,
   c3_no_frequency_validation.2 zeroRules zeroPlant zeroRule (dt 2024 3 1) rfl⟩

/-- C4 counterexample: a malformed `lastWateredDate` and a malformed
`lastFertilizedDate` produce the identical generic 500 error — the failure
does not identify the offending field and is not an
`InvalidTimestamp(field)` value. -/
theorem c4_counterexample :
    add_plant sampleRules badWaterReq = .error .internalServerError ∧
    add_plant sampleRules badFertReq = .error .internalServerError :=
  ⟨rfl, rfl⟩

/-- C4 (amended): if any one of the three last-performed timestamp strings
is malformed the whole operation aborts — no plant document is produced —
but the failure is the handler's generic catch-all internal-server-error
(HTTP 500), which does not identify the offending field. -/
theorem c4_bad_timestamp_aborts :
    ∀ (careRules : String → Option CareRuleDoc) (req : AddPlantRequest)
      (rules : CareRuleDoc),
      truthyReq req = true →
      careRules (req.plantType.getD "") = some rules →
      (parseTimestamp (req.lastWateredDate.getD "") = none ∨
       parseTimestamp (req.lastFertilizedDate.getD "") = none ∨
       parseTimestamp (req.lastRepottedDate.getD "") = none) →
      add_plant careRules req = .error .internalServerError := by
  intro careRules req rules ht hr hbad
  simp only [add_plant, ht, hr]
  rcases h1 : parseTimestamp (req.lastWateredDate.getD "") with _ | lw <;>
    rcases h2 : parseTimestamp (req.lastFertilizedDate.getD "") with _ | lf <;>
      rcases h3 : parseTimestamp (req.lastRepottedDate.getD "") with _ | lr <;>
        simp_all

/-- C4 witness: the malformed-lastWatered request aborts with the generic
500. -/
theorem c4_witness :
    add_plant sampleRules badWaterReq = .error .internalServerError :=
  c4_bad_timestamp_aborts sampleRules badWaterReq sampleRule rfl rfl (.inl rfl)

/-- C5: the next-repotting timestamp is the last-repotted timestamp moved
exactly `repottingFrequencyMonths` calendar months forward, with the day
of month clamped to the last valid day of the target month; concretely,
2024-01-31 plus one month is 2024-02-29. -/
theorem c5_repot_calendar_months :
    (∀ (careRules : String → Option CareRuleDoc) (req : AddPlantRequest)
       (p : PlantDoc),
      add_plant careRules req = .ok p →
      ∃ rules, careRules p.plantType = some rules ∧
        p.nextRepottingDate = addMonths p.lastRepottedDate rules.repottingFreq) ∧
    (∀ (d : DateTime) (n : Int), 0 < n →
      monthIndex (addMonths d n) = monthIndex d + n ∧
      (addMonths d n).day =
        min d.day (daysInMonth (addMonths d n).year (addMonths d n).month)) ∧
    addMonths (dt 2024 1 31) 1 = dt 2024 2 29 := by
  refine ⟨?_, ?_, by decide⟩
  · intro careRules req p h
    obtain ⟨rules, hr, _, _, _, hp⟩ := add_plant_ok_inv careRules req p h
    exact ⟨rules, hr, hp⟩
  · intro d n _
    exact ⟨(addMonths_spec d n).1, (addMonths_spec d n).2.1⟩

/-- C5 witness: the repot derivation of the concrete created plant, and the
month-count shift at the spec's edge-case date. -/
theorem c5_witness :
    (∃ rules, sampleRules samplePlant.plantType = some rules ∧
      samplePlant.nextRepottingDate =
        addMonths samplePlant.lastRepottedDate rules.repottingFreq) ∧
    monthIndex (addMonths (dt 2024 1 31) 1) = monthIndex (dt 2024 1 31) + 1 :=
  ⟨c5_repot_calendar_months.1 sampleRules sampleReq samplePlant rfl,
   (c5_repot_calendar_months.2.1 (dt 2024 1 31) 1 (by decide)).1⟩

/-- C6: the resolver normalizes the raw text and then resolves by exact key
equality first, else by the first canonical key (in the fixed ordering)
contained as a substring, else unresolved; in particular
`resolvePlantType "xyzindoorabc"` is Indoor. -/
theorem c6_resolution_order :
    (∀ raw : String, resolvePlantType (some raw) = resolveSpecOrder raw) ∧
    resolvePlantType (some "xyzindoorabc") = .resolved .indoor := by
  refine ⟨?_, by decide⟩
  intro raw
  by_cases hraw : raw = ""
  · subst hraw; decide
  · simp only [resolvePlantType, if_neg hraw, resolveSpecOrder,
               findExact_eq, findSub_eq]
    cases h1 : canonicalKeys.find? (fun kt => kt.1 == normalizeTypeText raw) with
    | some kt => rfl
    | none =>
      cases h2 : canonicalKeys.find?
          (fun kt => containsSubstr (normalizeTypeText raw) kt.1) with
      | some kt => rfl
      | none => rfl

/-- C7: empty and null raw input each resolve to the unresolved result
immediately. -/
theorem c7_empty_null_unresolved :
    resolvePlantType none = .unresolved ∧
    resolvePlantType (some "") = .unresolved :=
  ⟨rfl, rfl⟩

/-- C8: schedule initialization is a pure, deterministic function of the
rule table and the request — two runs on the same frozen inputs return
identical results. -/
theorem c8_pure_deterministic :
    ∀ (careRules1 careRules2 : String → Option CareRuleDoc)
      (req1 req2 : AddPlantRequest),
      careRules1 = careRules2 → req1 = req2 →
      add_plant careRules1 req1 = add_plant careRules2 req2 := by
  intro _ _ _ _ h1 h2
  rw [h1, h2]

/-- C8 witness: two runs on the frozen sample inputs coincide. -/
theorem c8_witness :
    add_plant sampleRules sampleReq = add_plant sampleRules sampleReq :=
  c8_pure_deterministic sampleRules sampleRules sampleReq sampleReq rfl rfl

/-- C9: when a frequency field is absent from the rule document, the fixed
defaults 7 days (watering), 30 days (fertilizing) and 12 months
(repotting) are used — in plant creation, plant update and care-event
logging alike. -/
theorem c9_frequency_defaults :
    (∀ (careRules : String → Option CareRuleDoc) (req : AddPlantRequest)
       (p : PlantDoc) (rules : CareRuleDoc),
      add_plant careRules req = .ok p →
      careRules p.plantType = some rules →
      (rules.wateringFrequencyDays = none →
        p.nextWateringDate = addDays p.lastWateredDate 7) ∧
      (rules.fertilizingFrequencyDays = none →
        p.nextFertilizingDate = addDays p.lastFertilizedDate 30) ∧
      (rules.repottingFrequencyMonths = none →
        p.nextRepottingDate = addMonths p.lastRepottedDate 12)) ∧
    (∀ (careRulesCI : String → Option CareRuleDoc) (pe : Bool)
       (req : UpdatePlantRequest) (u : PlantUpdate) (rules : CareRuleDoc),
      update_plant careRulesCI pe req = .ok u →
      careRulesCI (pyStrip (req.plantType.getD "")) = some rules →
      (rules.wateringFrequencyDays = none →
        u.nextWateringDate = addDays u.lastWateredDate 7) ∧
      (rules.fertilizingFrequencyDays = none →
        u.nextFertilizingDate = addDays u.lastFertilizedDate 30) ∧
      (rules.repottingFrequencyMonths = none →
        u.nextRepottingDate = addMonths u.lastRepottedDate 12)) ∧
    (∀ (careRules : String → Option CareRuleDoc) (p : PlantDoc)
       (rules : CareRuleDoc) (now : DateTime),
      careRules p.plantType = some rules →
      (rules.wateringFrequencyDays = none →
        log_plant_care careRules (some p) (some "water") now =
          .ok { p with lastWateredDate := now,
                       nextWateringDate := addDays now 7 }) ∧
      (rules.fertilizingFrequencyDays = none →
        log_plant_care careRules (some p) (some "fertilize") now =
          .ok { p with lastFertilizedDate := now,
                       nextFertilizingDate := addDays now 30 }) ∧
      (rules.repottingFrequencyMonths = none →
        log_plant_care careRules (some p) (some "repot") now =
          .ok { p with lastRepottedDate := now,
                       nextRepottingDate := addMonths now 12 })) := by
  refine ⟨?_, ?_, ?_⟩
  · intro careRules req p rules hok hr
    obtain ⟨rules2, hr2, _, hw, hf, hp⟩ := add_plant_ok_inv careRules req p hok
    obtain rfl : rules = rules2 := Option.some.inj (hr.symm.trans hr2)
    refine ⟨fun hn => ?_, fun hn => ?_, fun hn => ?_⟩
    · rw [hw]; unfold CareRuleDoc.wateringFreq; rw [hn]; rfl
    · rw [hf]; unfold CareRuleDoc.fertilizingFreq; rw [hn]; rfl
    · rw [hp]; unfold CareRuleDoc.repottingFreq; rw [hn]; rfl
  · intro careRulesCI pe req u rules hok hr
    obtain ⟨rules2, hr2, _, hw, hf, hp⟩ :=
      update_plant_ok_inv careRulesCI pe req u hok
    obtain rfl : rules = rules2 := Option.some.inj (hr.symm.trans hr2)
    refine ⟨fun hn => ?_, fun hn => ?_, fun hn => ?_⟩
    · rw [hw]; unfold CareRuleDoc.wateringFreq; rw [hn]; rfl
    · rw [hf]; unfold CareRuleDoc.fertilizingFreq; rw [hn]; rfl
    · rw [hp]; unfold CareRuleDoc.repottingFreq; rw [hn]; rfl
  · intro careRules p rules now hr
    refine ⟨fun hn => ?_, fun hn => ?_, fun hn => ?_⟩
    · rw [log_water_eq careRules p rules now hr]
      unfold CareRuleDoc.wateringFreq; rw [hn]; rfl
    · rw [log_fertilize_eq careRules p rules now hr]
      unfold CareRuleDoc.fertilizingFreq; rw [hn]; rfl
    · rw [log_repot_eq careRules p rules now hr]
      unfold CareRuleDoc.repottingFreq; rw [hn]; rfl

/-- C9 witness: against the rule document with every frequency field
absent, the three operations use 7, 30 and 12. -/
theorem c9_witness :
    (samplePlant.nextWateringDate = addDays samplePlant.lastWateredDate 7 ∧
     samplePlant.nextFertilizingDate =
       addDays samplePlant.lastFertilizedDate 30 ∧
     samplePlant.nextRepottingDate =
       addMonths samplePlant.lastRepottedDate 12) ∧
    (sampleUpdate.nextWateringDate = addDays sampleUpdate.lastWateredDate 7 ∧
     sampleUpdate.nextFertilizingDate =
       addDays sampleUpdate.lastFertilizedDate 30 ∧
     sampleUpdate.nextRepottingDate =
       addMonths sampleUpdate.lastRepottedDate 12) ∧
    log_plant_care defaultRules (some samplePlant) (some "water") (dt 2024 3 1) =
      .ok { samplePlant with lastWateredDate := dt 2024 3 1,
                             nextWateringDate := addDays (dt 2024 3 1) 7 } :=
  ⟨(fun h => ⟨h.1 rfl, h.2.1 rfl, h.2.2 rfl⟩)
     (c9_frequency_defaults.1 defaultRules sampleReq samplePlant defaultRule
        rfl rfl),
   (fun h => ⟨h.1 rfl, h.2.1 rfl, h.2.2 rfl⟩)
     (c9_frequency_defaults.2.1 defaultRules true sampleUpdateReq sampleUpdate
        defaultRule rfl rfl),
   (c9_frequency_defaults.2.2 defaultRules samplePlant defaultRule
      (dt 2024 3 1) rfl).1 rfl⟩

/-- C10: a care kind outside {water, fertilize, repot} is rejected with the
explicit invalid-careType error, and the stored plant document is left
unchanged (the collection write happens only on the success path). -/
theorem c10_invalid_care_kind :
    ∀ (careRules : String → Option CareRuleDoc) (p : PlantDoc)
      (rules : CareRuleDoc) (ct : String) (now : DateTime),
      careRules p.plantType = some rules →
      ct ≠ "" → ct ≠ "water" → ct ≠ "fertilize" → ct ≠ "repot" →
      log_plant_care careRules (some p) (some ct) now =
        .error .invalidCareType ∧
      storedAfterLog p (log_plant_care careRules (some p) (some ct) now) = p := by
  intro careRules p rules ct now hr h0 h1 h2 h3
  have h := log_invalid_ct careRules p rules ct now hr h0 h1 h2 h3
  exact ⟨h, by rw [h]; rfl⟩

/-- C10 witness: logging the unknown kind `prune` errors and leaves the
stored schedule untouched. -/
theorem c10_witness :
    log_plant_care sampleRules (some samplePlant) (some "prune") (dt 2024 3 1) =
      .error .invalidCareType ∧
    storedAfterLog samplePlant
      (log_plant_care sampleRules (some samplePlant) (some "prune")
        (dt 2024 3 1)) = samplePlant :=
  c10_invalid_care_kind sampleRules samplePlant sampleRule "prune" (dt 2024 3 1)
    rfl (by decide) (by decide) (by decide) (by decide)

end GreenBuddy

